import Mathlib

/-!
Shallow embedding of the hrekt HTTP prober (src/main.rs) for checking the
natural-language specification against the code.

External collaborators (the reqwest HTTP client, the regex engine applied to
caller-supplied patterns, tokio DNS lookup, the wappalyzer fingerprinting
service) are modelled as parameters bundled in `Env` / passed explicitly; the
control flow of `main`, `send_url`, `run_detector` and `http_resolver` is
transcribed from the source.  The fixed title pattern `<title>(.*)</title>`
is implemented concretely (greedy `.*` that does not cross a newline,
leftmost non-overlapping matches, as the Rust regex crate behaves on this
pattern).
-/

namespace Hrekt

/-- One socket address returned by `tokio::net::lookup_host`; the code only
inspects `is_ipv4`. -/
structure SockAddr where
  is_ipv4 : Bool
deriving DecidableEq

/-- Job descriptor (src/main.rs lines 15-28).  In the source every field is an
`Option` that is always populated by `send_url` and immediately `unwrap`ped at
the top of `run_detector`'s loop; we model the unwrapped values. -/
structure Job where
  host : String
  body_regex : String
  header_regex : String
  ports : String
  display_title : Bool
  display_tech : Bool
  status_codes : Bool
  content_length : Bool
  content_type : Bool
  server : Bool
  path : String
deriving DecidableEq

/-- One HTTP response as the code consumes it: status code, header list in
received order (a `none` value models a header whose value fails `to_str`,
i.e. is not valid UTF-8/visible ASCII), body text (`none` models a failing
`resp.text()`), and the transport-reported content length. -/
structure Response where
  status : Nat
  headers : List (String × Option String)
  body : Option String
  content_length : Option Nat

/-- The external collaborators, as pure parameters:
* `exec url` — building and executing a GET to `url`; `none` models a request
  that fails to build (malformed URL) or to execute (network error/timeout),
  both of which the code handles with `continue`;
* `compileOk pat` — whether `regex::Regex::new(pat)` succeeds;
* `isMatch pat s` — `Regex::new(pat).is_match(s)` for a compiled pattern;
* `urlParseOk s` — whether `reqwest::Url::parse(s)` succeeds;
* `scan url` — `wappalyzer::scan`; `none` models an `Err` result, `some l`
  the list of detected technology names. -/
structure Env where
  exec : String → Option Response
  compileOk : String → Bool
  isMatch : String → String → Bool
  urlParseOk : String → Bool
  scan : String → Option (List String)

/-- One output line's fields, in print order (colors dropped):
`println!("{} {} {} {} {} {} {}", domain_result, title, status_code,
tech_str, content_type, content_length, server)`. -/
structure OutLine where
  url : String
  title : String
  status_code : String
  tech_str : String
  content_type : String
  content_length : String
  server : String
deriving DecidableEq

/-! ## String helpers

`job_ports.split(",")` and the case-insensitive header lookup of reqwest's
`HeaderMap::get` are modelled structurally over character lists (the
standard-library `String.splitOn` and `String.toLower` are defined through
byte positions and well-founded recursion, which the kernel cannot
evaluate). -/

/-- `split(",")` over the character list: empty input yields `[""]`, empty
pieces are kept — the behaviour of Rust's `str::split` with a non-empty
separator. -/
def splitCommaChars : List Char → List (List Char)
  | [] => [[]]
  | c :: t =>
    match splitCommaChars t with
    | [] => [[]]
    | cur :: rest => if c = ',' then [] :: cur :: rest else (c :: cur) :: rest

def splitOnComma (s : String) : List String :=
  (splitCommaChars s.toList).map String.mk

/-- ASCII lower-casing of one character. -/
def lowerChar (c : Char) : Char :=
  if 65 ≤ c.toNat ∧ c.toNat ≤ 90 then Char.ofNat (c.toNat + 32) else c

def lowerChars (l : List Char) : List Char := l.map lowerChar

/-! ## Resolver (http_resolver, lines 1075-1093) -/

/-- `http_resolver(host, schema, port)`: start from the scheme string, look up
`host:port`; on lookup error return `""`; otherwise append `host:port` at the
first IPv4 address (then break) and return the accumulated string — so a
successful lookup with no IPv4 address returns the bare scheme string. -/
def http_resolver (lookup : String → Option (List SockAddr))
    (host schema port : String) : String :=
  let host_str := schema
  let domain := host ++ ":" ++ port
  match lookup domain with
  | none => ""
  | some addrs =>
    if addrs.any (fun a => a.is_ipv4) then host_str ++ host ++ ":" ++ port
    else host_str

/-- The resolver attempts one port token makes (run_detector lines 443-457):
port `"80"` → http only, `"443"` → https only, anything else → https then
http. -/
def portAttempts (lookup : String → Option (List SockAddr))
    (job_host port : String) : List String :=
  if port = "80" then [http_resolver lookup job_host "http://" port]
  else if port = "443" then [http_resolver lookup job_host "https://" port]
  else [http_resolver lookup job_host "https://" port,
        http_resolver lookup job_host "http://" port]

/-- `resolved_domains` (run_detector lines 434-458): starts as `vec![""]`,
then for each comma-split port token the resolver results are pushed. -/
def resolvedDomains (lookup : String → Option (List SockAddr))
    (job_host job_ports : String) : List String :=
  (splitOnComma job_ports).foldl
    (fun acc port => acc ++ portAttempts lookup job_host port)
    [""]

/-! ## Title extraction: the fixed pattern `<title>(.*)</title>`

`.` in the Rust regex crate matches any character except `\n`; `.*` is greedy
with leftmost-first semantics, and `captures_iter` yields successive
non-overlapping matches, resuming after each match's end. -/

def openTag : List Char := String.toList "<title>"
def closeTag : List Char := String.toList "</title>"

/-- All splits `cs = pre ++ "</title>" ++ rest` whose `pre` contains no
newline, in order of increasing `pre` length. -/
def closeSplits : List Char → List (List Char × List Char)
  | [] => []
  | c :: t =>
    let here : List (List Char × List Char) :=
      if closeTag.isPrefixOf (c :: t) then [([], (c :: t).drop closeTag.length)]
      else []
    let deeper : List (List Char × List Char) :=
      if c = '\n' then []
      else (closeSplits t).map (fun pr => (c :: pr.1, pr.2))
    here ++ deeper

/-- The greedy `(.*)</title>` step: the split with the longest newline-free
capture, i.e. the last element of `closeSplits`. -/
def greedyClose (cs : List Char) : Option (List Char × List Char) :=
  (closeSplits cs).getLast?

/-- Successive non-overlapping captures of `<title>(.*)</title>` over the
body, fuelled by the remaining length (each step consumes at least one
character, so the initial fuel is always sufficient). -/
def titleCapturesGo : Nat → List Char → List String
  | 0, _ => []
  | _ + 1, [] => []
  | fuel + 1, c :: t =>
    if openTag.isPrefixOf (c :: t) then
      match greedyClose ((c :: t).drop openTag.length) with
      | some pr => String.mk pr.1 :: titleCapturesGo fuel pr.2
      | none => titleCapturesGo fuel t
    else titleCapturesGo fuel t

def titleCaptures (body : String) : List String :=
  titleCapturesGo body.toList.length body.toList

/-- The title loop (lines 636-651 / 926-942): walk the captures; the first
non-empty capture is bracketed and the loop breaks; empty captures are
skipped without breaking. -/
def titleLoop : List String → String
  | [] => ""
  | cap :: rest => if cap = "" then titleLoop rest else "[" ++ cap ++ "]"

def titleString (body : String) : String :=
  titleLoop (titleCaptures body)

/-! ## Header access -/

/-- `response.headers().get(name)` — reqwest header names are matched
case-insensitively.  `none`: header absent; `some none`: present but its
value fails `to_str`; `some (some v)`: present with value `v`. -/
def headersGet (hs : List (String × Option String)) (name : String) :
    Option (Option String) :=
  (hs.find? (fun kv => lowerChars kv.1.toList == lowerChars name.toList)).map
    (fun kv => kv.2)

/-! ## Header-regex check (lines 604-625 with path, 900-917 without)

The loop body compiles the pattern and tests it against the `"name:value"`
line; on a failed compile or a non-match it executes `continue` — which in
Rust continues the *header* loop, not the candidate loop.  Nothing computed
in the loop escapes it, so the candidate proceeds no matter what matched. -/

/-- The per-header-line computation of one loop iteration: build
`"name:value"` (a value failing `to_str` becomes `""`), compile the pattern
and test the line; `false` when the compile fails. -/
def headerLineMatch (env : Env) (job_header_regex : String)
    (kv : String × Option String) : Bool :=
  let header_value := match kv.2 with
    | some v => v
    | none => ""
  let header_str := kv.1 ++ ":" ++ header_value
  if env.compileOk job_header_regex then env.isMatch job_header_regex header_str
  else false

/-- The sequence of per-line match results the loop computes (and discards). -/
def headerLineMatches (env : Env) (job_header_regex : String)
    (headers : List (String × Option String)) : List Bool :=
  if job_header_regex = "" then []
  else headers.map (headerLineMatch env job_header_regex)

/-- Whether the candidate survives the header-regex check: the fold mirrors
the loop — each iteration's `continue` leaves candidate survival untouched,
so the accumulator is never changed. -/
def headerRegexGate (env : Env) (job_header_regex : String)
    (headers : List (String × Option String)) : Bool :=
  (headerLineMatches env job_header_regex headers).foldl
    (fun survive _m => survive) true

/-- Modelled from the spec: the intended header-regex boolean gate (spec
sections 4.5 and 8) — with a non-empty pattern the candidate is retained iff
at least one `"name:value"` header line matches; an empty pattern always
passes.  This is what the claim asserts; the code's gate is
`headerRegexGate` above. -/
def headerRegexGateSpec (env : Env) (job_header_regex : String)
    (headers : List (String × Option String)) : Bool :=
  if job_header_regex = "" then true
  else headers.any (headerLineMatch env job_header_regex)

/-! ## Remaining per-candidate stages -/

/-- Body-regex gate (lines 688-692 / 977-981): with a non-empty configured
pattern, a candidate whose body does not match is dropped (`continue`). -/
def bodyRegexDrops (env : Env) (job_body_regex body : String) : Bool :=
  if job_body_regex = "" then false
  else ! env.isMatch job_body_regex body

/-- `tech_name.strip_suffix(",")`. -/
def stripSuffixComma (s : String) : Option String :=
  if s.endsWith "," then some (s.dropRight 1) else none

/-- Technology stage (lines 666-686 / 955-975): only when the tech flag is
set; a scan error (`Err`) drops the candidate (`continue`, modelled as
`none`); otherwise the names are comma-joined and bracketed (empty result →
empty field). -/
def techStage (env : Env) (flag : Bool) (url : String) : Option String :=
  if flag then
    match env.scan url with
    | none => none
    | some techs =>
      let tech_name := techs.foldl (fun acc nm => acc ++ nm ++ ",") ""
      if tech_name = "" then some ""
      else
        let tech := match stripSuffixComma tech_name with
          | some tech => tech
          | none => ""
        some ("[" ++ tech ++ "]")
  else some ""

/-- The final print step (lines 694-777 / 983-1066): with status-code
reporting on, the status is bracketed and one line is printed by whichever
of the five disjoint range tests holds (none for a status outside
[100,600)); with it off, one line is printed with a blank status field. -/
def printStep (job : Job) (sc : Nat) (domain_result title tech_str
    content_type content_length server : String) : Option OutLine :=
  if job.status_codes then
    let status_code := "[" ++ toString sc ++ "]"
    if (100 ≤ sc ∧ sc < 200) ∨ (200 ≤ sc ∧ sc < 300) ∨ (300 ≤ sc ∧ sc < 400)
        ∨ (400 ≤ sc ∧ sc < 500) ∨ (500 ≤ sc ∧ sc < 600) then
      some ⟨domain_result, title, status_code, tech_str, content_type,
            content_length, server⟩
    else none
  else
    some ⟨domain_result, title, "", tech_str, content_type, content_length,
          server⟩

/-- Optional content-length fetch (lines 504-526 / 815-837): when the flag is
set, an independent GET is issued; a failed request drops the candidate
(`none`); otherwise the field is always bracketed, with an absent transport
length rendered as `[]`.  Returns the updated request trace alongside. -/
def fetchContentLength (env : Env) (flag : Bool) (url : String)
    (t : List String) : List String × Option String :=
  if flag then
    match env.exec url with
    | none => (t ++ [url], none)
    | some response =>
      let cl := match response.content_length with
        | some cl => toString cl
        | none => ""
      (t ++ [url], some ("[" ++ cl ++ "]"))
  else (t, some "")

/-- Optional header-derived metadata fetch (Content-Type lines 530-557 /
841-869, Server lines 561-588 / 871-898): when the flag is set, an
independent GET is issued; a failed request or a header value failing
`to_str` drops the candidate (`none`); an absent header yields `""`. -/
def fetchHeaderField (env : Env) (flag : Bool) (url name : String)
    (t : List String) : List String × Option String :=
  if flag then
    match env.exec url with
    | none => (t ++ [url], none)
    | some response =>
      match headersGet response.headers name with
      | some (some v) => (t ++ [url], some v)
      | some none => (t ++ [url], none)
      | none => (t ++ [url], some "")
  else (t, some "")

/-- The analysis tail shared by both variants (header-regex check, body text,
title, body-regex compile, URL parse, technology scan, body-regex gate,
print): `resp` is the response whose headers and body are inspected, `sc`
the status of the separately fetched `response`. -/
def analyzeTail (env : Env) (job : Job) (domain_result : String)
    (resp : Response) (sc : Nat)
    (content_type content_length server : String) (t : List String) :
    List String × Option OutLine :=
  if headerRegexGate env job.header_regex resp.headers then
    match resp.body with
    | none => (t, none)
    | some body =>
      let title := if job.display_title then titleString body else ""
      if env.compileOk job.body_regex then
        if env.urlParseOk domain_result then
          match techStage env job.display_tech domain_result with
          | none => (t, none)
          | some tech_str =>
            if bodyRegexDrops env job.body_regex body then (t, none)
            else (t, printStep job sc domain_result title tech_str
                       content_type content_length server)
        else (t, none)
      else (t, none)
  else (t, none)

/-- With-path candidate processing (lines 463-778): path probe first; a 404
or 400 (or a failed probe) abandons the candidate; otherwise the substantive
GET, the optional metadata fetches, the status GET and the analysis tail all
target `candidate ++ path`.  The returned list is the trace of attempted
requests.  Note the `server` field: the code guards the population of the
field on the — still empty — `server` string instead of the fetched value
`s`, so the field always stays empty in this variant. -/
def processWithPath (env : Env) (job : Job) (domain : String) :
    List String × Option OutLine :=
  let path_url := domain ++ job.path
  match env.exec path_url with
  | none => ([path_url], none)
  | some path_resp =>
    if path_resp.status ≠ 404 ∧ path_resp.status ≠ 400 then
      let domain_result := path_url
      match env.exec domain_result with
      | none => ([path_url, domain_result], none)
      | some resp =>
        match fetchContentLength env job.content_length domain_result
            [path_url, domain_result] with
        | (t, none) => (t, none)
        | (t, some content_length) =>
          match fetchHeaderField env job.content_type domain_result
              "Content-Type" t with
          | (t, none) => (t, none)
          | (t, some ct) =>
            let content_type := if ct = "" then "" else "[" ++ ct ++ "]"
            match fetchHeaderField env job.server domain_result "Server" t with
            | (t, none) => (t, none)
            | (t, some s) =>
              let server := ""
              let server := if server = "" then server
                            else server ++ "[" ++ s ++ "]"
              match env.exec domain_result with
              | none => (t ++ [domain_result], none)
              | some response =>
                analyzeTail env job domain_result resp response.status
                  content_type content_length server (t ++ [domain_result])
    else ([path_url], none)

/-- No-path candidate processing (lines 779-1067): the candidate URL itself
is fetched twice (`resp` for headers/body, `response` for the status), then
the optional metadata fetches and the analysis tail follow; here the server
field is correctly populated from the fetched value `s`. -/
def processNoPath (env : Env) (job : Job) (domain : String) :
    List String × Option OutLine :=
  let url := domain
  let domain_result := url
  match env.exec url with
  | none => ([url], none)
  | some resp =>
    match env.exec url with
    | none => ([url, url], none)
    | some response =>
      match fetchContentLength env job.content_length domain_result
          [url, url] with
      | (t, none) => (t, none)
      | (t, some content_length) =>
        match fetchHeaderField env job.content_type domain_result
            "Content-Type" t with
        | (t, none) => (t, none)
        | (t, some ct) =>
          let content_type := if ct = "" then "" else "[" ++ ct ++ "]"
          match fetchHeaderField env job.server domain_result "Server" t with
          | (t, none) => (t, none)
          | (t, some s) =>
            let server := if s = "" then "" else "[" ++ s ++ "]"
            analyzeTail env job domain_result resp response.status
              content_type content_length server t

/-- Per-candidate dispatch (line 463): the with-path variant runs iff the
job's path is non-empty. -/
def processCandidate (env : Env) (job : Job) (domain : String) :
    List String × Option OutLine :=
  if job.path ≠ "" then processWithPath env job domain
  else processNoPath env job domain

/-- One job's processing inside `run_detector`'s loop: resolve all candidates
first, then probe each sequentially. -/
def runJob (env : Env) (lookup : String → Option (List SockAddr))
    (job : Job) : List (List String × Option OutLine) :=
  (resolvedDomains lookup job.host job.ports).map (processCandidate env job)

/-! ## Concrete instantiations used by witnesses and counterexamples -/

/-- Literal substring containment: the behaviour of `Regex::is_match` for the
metacharacter-free patterns used in the concrete scenarios. -/
def substrMatch (pat s : String) : Bool :=
  s.toList.tails.any (fun t => pat.toList.isPrefixOf t)

/-! ## Helper lemmas -/

theorem foldl_const {α β : Type} (l : List α) (b : β) :
    l.foldl (fun s _ => s) b = b := by
  induction l generalizing b with
  | nil => rfl
  | cons x xs ih => exact ih b

/-- The header-regex check never excludes a candidate: every `continue` in
the loop targets the header loop itself. -/
theorem headerRegexGate_true (env : Env) (r : String)
    (hs : List (String × Option String)) :
    headerRegexGate env r hs = true := by
  unfold headerRegexGate
  exact foldl_const _ true

theorem foldl_append_portAttempts (lookup : String → Option (List SockAddr))
    (host : String) (l : List String) (acc : List String) :
    l.foldl (fun a p => a ++ portAttempts lookup host p) acc
      = acc ++ l.flatMap (portAttempts lookup host) := by
  induction l generalizing acc with
  | nil => simp
  | cons x xs ih => simp [ih, List.append_assoc]

/-- Shape of the resolved-candidate list: the initial `""` element followed
by the per-port attempts in order. -/
theorem resolvedDomains_eq (lookup : String → Option (List SockAddr))
    (host ports : String) :
    resolvedDomains lookup host ports
      = "" :: (splitOnComma ports).flatMap (portAttempts lookup host) := by
  unfold resolvedDomains
  rw [foldl_append_portAttempts]
  rfl

/-- Any line emitted by the analysis tail carries through the metadata fields
it was handed. -/
theorem analyzeTail_out_fields (env : Env) (job : Job) (dr : String)
    (resp : Response) (sc : Nat) (ct cl sv : String) (t t' : List String)
    (out : OutLine)
    (h : analyzeTail env job dr resp sc ct cl sv t = (t', some out)) :
    out.url = dr ∧ out.content_type = ct ∧ out.content_length = cl
      ∧ out.server = sv := by
  unfold analyzeTail printStep at h
  repeat' split at h
  all_goals simp_all
  all_goals (obtain ⟨ht, hout⟩ := h; subst hout; exact ⟨rfl, rfl, rfl, rfl⟩)

/-- With the tech flag set and a collaborator that only errors, the tail
never emits. -/
theorem analyzeTail_none_of_scan (env : Env) (job : Job) (dr : String)
    (resp : Response) (sc : Nat) (ct cl sv : String) (t : List String)
    (hflag : job.display_tech = true)
    (hscan : ∀ u, env.scan u = none) :
    (analyzeTail env job dr resp sc ct cl sv t).2 = none := by
  unfold analyzeTail
  repeat' split
  all_goals simp_all [techStage, hscan]

/-- With a non-empty body pattern that matches no body, the tail never
emits. -/
theorem analyzeTail_none_of_nomatch (env : Env) (job : Job) (dr : String)
    (resp : Response) (sc : Nat) (ct cl sv : String) (t : List String)
    (hne : job.body_regex ≠ "")
    (hnm : ∀ b, env.isMatch job.body_regex b = false) :
    (analyzeTail env job dr resp sc ct cl sv t).2 = none := by
  unfold analyzeTail
  repeat' split
  all_goals simp_all [bodyRegexDrops, hnm]

/-! ## Rate configuration parsing (main, lines 192-198; send_url, line 357)

```
let rate = match matches.get_one::<String>("rate").unwrap().parse::<String>() {
    Ok(n) => n.parse::<u32>().unwrap(),
    Err(_) => { println!("could not parse rate, using default of 1000"); 1000 }
};
```
`str::parse::<String>` is infallible, so the `Err` arm (the documented
fallback to 1000) is unreachable; the inner `parse::<u32>().unwrap()`
panics on a non-numeric value.  `send_url` then builds the limiter with
`NonZeroU32::new(rate).unwrap()`, which panics on 0. -/

/-- `"s".parse::<String>()` — `FromStr` for `String` has `Err = Infallible`. -/
def parseAsString (s : String) : Except Unit String := Except.ok s

/-- `str::parse::<u32>`: optional leading `+`, at least one ASCII digit,
value below `2^32`. -/
def parseU32 (s : String) : Option Nat :=
  let t := match s.toList with
    | '+' :: r => r
    | r => r
  if t = [] then none
  else if t.all (fun c => c.isDigit) then
    let v := t.foldl (fun acc c => acc * 10 + (c.toNat - 48)) 0
    if v < 4294967296 then some v else none
  else none

/-- The value the `rate` binding receives; `none` models the panic of the
`unwrap` on a failed `u32` parse. -/
def rateFromArg (s : String) : Option Nat :=
  match parseAsString s with
  | Except.ok n => parseU32 n
  | Except.error _ => some 1000

/-- `Quota::per_second(NonZeroU32::new(rate).unwrap())` in `send_url`;
`none` models the panic on `rate = 0`. -/
def quotaPerSecond (rate : Nat) : Option Nat :=
  if rate = 0 then none else some rate

/-! ## Concrete scenario objects for witnesses and counterexamples -/

/-- A 200 response carrying a `Server` header and a title in the body. -/
def resp200 : Response :=
  ⟨200, [("Server", some "nginx")],
   some "<html><title>Example</title></html>", some 36⟩

/-- A 404 response whose body would match the body pattern `"admin"`. -/
def resp404 : Response := ⟨404, [], some "adminpanel", some 10⟩

/-- Environment whose matcher is literal substring containment and whose
network always fails. -/
def substrEnv : Env :=
  ⟨fun _ => none, fun _ => true, substrMatch, fun _ => true, fun _ => none⟩

/-- Environment where every request succeeds with `resp200` and the scanner
finds nothing. -/
def okEnv : Env :=
  ⟨fun _ => some resp200, fun _ => true, substrMatch, fun _ => true,
   fun _ => some []⟩

/-- Like `okEnv` but the regex matcher rejects everything. -/
def okEnvNoMatch : Env :=
  ⟨fun _ => some resp200, fun _ => true, fun _ _ => false, fun _ => true,
   fun _ => some []⟩

/-- Like `okEnv` but the fingerprinting collaborator always errors. -/
def scanErrEnv : Env :=
  ⟨fun _ => some resp200, fun _ => true, substrMatch, fun _ => true,
   fun _ => none⟩

/-- Environment where every request answers with the 404 response. -/
def failEnv404 : Env :=
  ⟨fun _ => some resp404, fun _ => true, substrMatch, fun _ => true,
   fun _ => some []⟩

/-- Environment where every request fails. -/
def failEnv : Env :=
  ⟨fun _ => none, fun _ => true, substrMatch, fun _ => true, fun _ => none⟩

/-- A DNS collaborator that always yields one IPv4 address. -/
def ipv4Lookup : String → Option (List SockAddr) := fun _ => some [⟨true⟩]

/-- Baseline job: default ports, every flag off, no path, no patterns. -/
def baseJob : Job :=
  ⟨"example.com", "", "", "80,443", false, false, false, false, false, false,
   ""⟩

/-- Job with the tech-detect flag set. -/
def techJob : Job :=
  ⟨"example.com", "", "", "443", false, true, false, false, false, false, ""⟩

/-- Job with path `/admin` and body pattern `admin`. -/
def pathJob : Job :=
  ⟨"h", "admin", "", "80", false, false, false, false, false, false,
   "/admin"⟩

/-- Job with a body pattern only. -/
def regexJob : Job :=
  ⟨"h", "NOPE", "", "80", false, false, false, false, false, false, ""⟩

/-- Job with the server flag and a path. -/
def srvJobP : Job :=
  ⟨"h", "", "", "80", false, false, false, false, false, true, "/x"⟩

/-- Job with the server flag and no path. -/
def srvJobN : Job :=
  ⟨"h", "", "", "80", false, false, false, false, false, true, ""⟩

/-- The line the with-path server job emits under `okEnv`. -/
def srvLineP : OutLine := ⟨"http://h:80/x", "", "", "", "", "", ""⟩

/-- The line the no-path server job emits under `okEnv`. -/
def srvLineN : OutLine := ⟨"http://h:80", "", "", "", "", "", "[nginx]"⟩

/-- Lifting `analyzeTail_none_of_scan` through the with-path variant. -/
theorem processWithPath_none_of_scan (env : Env) (job : Job) (domain : String)
    (hflag : job.display_tech = true)
    (hscan : ∀ u, env.scan u = none) :
    (processWithPath env job domain).2 = none := by
  unfold processWithPath
  dsimp only
  repeat' split
  all_goals
    first
      | rfl
      | exact analyzeTail_none_of_scan _ _ _ _ _ _ _ _ _ hflag hscan

/-- Lifting `analyzeTail_none_of_scan` through the no-path variant. -/
theorem processNoPath_none_of_scan (env : Env) (job : Job) (domain : String)
    (hflag : job.display_tech = true)
    (hscan : ∀ u, env.scan u = none) :
    (processNoPath env job domain).2 = none := by
  unfold processNoPath
  dsimp only
  repeat' split
  all_goals
    first
      | rfl
      | exact analyzeTail_none_of_scan _ _ _ _ _ _ _ _ _ hflag hscan

/-- Lifting `analyzeTail_none_of_nomatch` through the with-path variant. -/
theorem processWithPath_none_of_nomatch (env : Env) (job : Job)
    (domain : String) (hne : job.body_regex ≠ "")
    (hnm : ∀ b, env.isMatch job.body_regex b = false) :
    (processWithPath env job domain).2 = none := by
  unfold processWithPath
  dsimp only
  repeat' split
  all_goals
    first
      | rfl
      | exact analyzeTail_none_of_nomatch _ _ _ _ _ _ _ _ _ hne hnm

/-- Lifting `analyzeTail_none_of_nomatch` through the no-path variant. -/
theorem processNoPath_none_of_nomatch (env : Env) (job : Job)
    (domain : String) (hne : job.body_regex ≠ "")
    (hnm : ∀ b, env.isMatch job.body_regex b = false) :
    (processNoPath env job domain).2 = none := by
  unfold processNoPath
  dsimp only
  repeat' split
  all_goals
    first
      | rfl
      | exact analyzeTail_none_of_nomatch _ _ _ _ _ _ _ _ _ hne hnm

/-- `"" ++ s = s` for strings. -/
theorem empty_append_str (s : String) : "" ++ s = s := by
  cases s
  rfl

/-- All-empty capture lists make the title loop yield nothing. -/
theorem titleLoop_all_empty (caps : List String)
    (h : ∀ c ∈ caps, c = "") : titleLoop caps = "" := by
  induction caps with
  | nil => rfl
  | cons x rest ih =>
    have hx : x = "" := h x (List.mem_cons_self x rest)
    simp only [titleLoop, if_pos hx]
    exact ih (fun c hc => h c (List.mem_cons_of_mem x hc))

/-- The title loop yields the bracketed first non-empty capture. -/
theorem titleLoop_find (caps : List String) (c : String)
    (h : caps.find? (fun s => s != "") = some c) :
    titleLoop caps = "[" ++ c ++ "]" := by
  induction caps with
  | nil => simp at h
  | cons x rest ih =>
    by_cases hx : x = ""
    · have hpred : (x != "") = false := by simp [hx]
      simp only [List.find?, hpred] at h
      simp only [titleLoop, if_pos hx]
      exact ih h
    · have hpred : (x != "") = true := by simp [hx]
      simp only [List.find?, hpred] at h
      cases h
      simp only [titleLoop, if_neg hx]

/-- The body gate never fires for an empty configured pattern. -/
theorem bodyRegexDrops_empty (env : Env) (b : String) :
    bodyRegexDrops env "" b = false := rfl

/-- `fetchContentLength` only consults the network component. -/
theorem fetchContentLength_cong (env env' : Env)
    (hexec : env'.exec = env.exec) (flag : Bool) (url : String)
    (t : List String) :
    fetchContentLength env' flag url t = fetchContentLength env flag url t := by
  unfold fetchContentLength
  rw [hexec]

/-- `fetchHeaderField` only consults the network component. -/
theorem fetchHeaderField_cong (env env' : Env)
    (hexec : env'.exec = env.exec) (flag : Bool) (url name : String)
    (t : List String) :
    fetchHeaderField env' flag url name t
      = fetchHeaderField env flag url name t := by
  unfold fetchHeaderField
  rw [hexec]

/-- `techStage` only consults the scanner component. -/
theorem techStage_cong (env env' : Env) (hscan : env'.scan = env.scan)
    (flag : Bool) (url : String) :
    techStage env' flag url = techStage env flag url := by
  unfold techStage
  rw [hscan]

/-- With an empty body pattern the analysis tail never consults the regex
matcher: two environments agreeing on everything but `isMatch` behave
identically. -/
theorem analyzeTail_cong (env env' : Env) (job : Job)
    (hbody : job.body_regex = "")
    (hcompile : env'.compileOk = env.compileOk)
    (hparse : env'.urlParseOk = env.urlParseOk)
    (hscan : env'.scan = env.scan)
    (dr : String) (resp : Response) (sc : Nat) (ct cl sv : String)
    (t : List String) :
    analyzeTail env' job dr resp sc ct cl sv t
      = analyzeTail env job dr resp sc ct cl sv t := by
  unfold analyzeTail
  simp [headerRegexGate_true, hcompile, hparse,
    techStage_cong env env' hscan, hbody, bodyRegexDrops_empty]

/-- With-path processing is `isMatch`-independent when the body pattern is
empty. -/
theorem processWithPath_cong (env env' : Env) (job : Job) (d : String)
    (hexec : env'.exec = env.exec)
    (hcompile : env'.compileOk = env.compileOk)
    (hparse : env'.urlParseOk = env.urlParseOk)
    (hscan : env'.scan = env.scan)
    (hbody : job.body_regex = "") :
    processWithPath env' job d = processWithPath env job d := by
  unfold processWithPath
  simp only [hexec, fetchContentLength_cong env env' hexec,
    fetchHeaderField_cong env env' hexec,
    analyzeTail_cong env env' job hbody hcompile hparse hscan]

/-- No-path processing is `isMatch`-independent when the body pattern is
empty. -/
theorem processNoPath_cong (env env' : Env) (job : Job) (d : String)
    (hexec : env'.exec = env.exec)
    (hcompile : env'.compileOk = env.compileOk)
    (hparse : env'.urlParseOk = env.urlParseOk)
    (hscan : env'.scan = env.scan)
    (hbody : job.body_regex = "") :
    processNoPath env' job d = processNoPath env job d := by
  unfold processNoPath
  simp only [hexec, fetchContentLength_cong env env' hexec,
    fetchHeaderField_cong env env' hexec,
    analyzeTail_cong env env' job hbody hcompile hparse hscan]

/-! ## Claims -/

/-- C1: the claim says a candidate none of whose `"name:value"` header lines
matches a configured non-empty header-regex is dropped.  In the code every
`continue` of the header loop (lines 604-625 / 900-917) targets the header
loop itself, so the check never excludes any candidate: `headerRegexGate`
is constantly `true`, and on the spec scenario (header `X-Powered-By:
PHP/7.4`, pattern `X-Powered-By:ASP`) the code retains the candidate that
the claim and the intended gate (`headerRegexGateSpec`) would drop. -/
theorem C1_header_gate_never_drops :
    (∀ env r hs, headerRegexGate env r hs = true)
      ∧ headerRegexGate substrEnv "X-Powered-By:ASP"
          [("X-Powered-By", some "PHP/7.4")] = true
      ∧ headerRegexGateSpec substrEnv "X-Powered-By:ASP"
          [("X-Powered-By", some "PHP/7.4")] = false
      ∧ headerRegexGateSpec substrEnv "X-Powered-By:PHP"
          [("X-Powered-By", some "PHP/7.4")] = true := by
  refine ⟨headerRegexGate_true, headerRegexGate_true _ _ _, by decide, by decide⟩

/-- C2 counterexample: the claim says a failed lookup (or one without IPv4
results) contributes zero candidates, so that only fully qualified
`scheme://host:port` URLs are probed.  In the code `http_resolver`'s result
is pushed unconditionally: a failing lookup pushes `""` and a lookup
without IPv4 results pushes the bare scheme string, and both entries are
subsequently probed. -/
theorem C2_counterexample :
    resolvedDomains (fun _ => none) "example.com" "80" = ["", ""]
      ∧ resolvedDomains (fun _ => some []) "example.com" "443"
          = ["", "https://"] := by
  refine ⟨by decide, by decide⟩

/-- C2 (amended): for every resolution attempt, a failed lookup contributes
the entry `""`, a successful lookup without IPv4 results contributes the
bare scheme string, and only a successful lookup with at least one IPv4
address contributes the fully qualified `scheme://host:port` candidate. -/
theorem C2_resolver_trichotomy (lookup : String → Option (List SockAddr))
    (host schema port : String) :
    (lookup (host ++ ":" ++ port) = none
        ∧ http_resolver lookup host schema port = "")
      ∨ (∃ addrs, lookup (host ++ ":" ++ port) = some addrs
          ∧ addrs.any (fun a => a.is_ipv4) = false
          ∧ http_resolver lookup host schema port = schema)
      ∨ (∃ addrs, lookup (host ++ ":" ++ port) = some addrs
          ∧ addrs.any (fun a => a.is_ipv4) = true
          ∧ http_resolver lookup host schema port
              = schema ++ host ++ ":" ++ port) := by
  cases h : lookup (host ++ ":" ++ port) with
  | none => exact Or.inl ⟨rfl, by simp [http_resolver, h]⟩
  | some addrs =>
    cases hip : addrs.any (fun a => a.is_ipv4) with
    | false =>
      exact Or.inr (Or.inl ⟨addrs, rfl, hip, by simp [http_resolver, h, hip]⟩)
    | true =>
      exact Or.inr (Or.inr ⟨addrs, rfl, hip, by simp [http_resolver, h, hip]⟩)

/-- C3: the claim says a non-numeric or non-positive rate value falls back
to the documented default 1000 and the program continues.  In the code the
outer `parse::<String>` is infallible, so `rateFromArg` never takes the
fallback arm: a non-numeric value reaches `parse::<u32>().unwrap()` and
panics (`none`), and the value `0` parses but panics in `send_url` at
`NonZeroU32::new(0).unwrap()` (`quotaPerSecond 0 = none`). -/
theorem C3_invalid_rate_panics :
    (∀ s, rateFromArg s = parseU32 s)
      ∧ rateFromArg "abc" = none
      ∧ rateFromArg "0" = some 0
      ∧ quotaPerSecond 0 = none
      ∧ rateFromArg "1000" = some 1000 := by
  refine ⟨fun s => rfl, by decide, by decide, rfl, by decide⟩

/-- C5: candidates per port token — the resolved list is the initial `""`
followed, for each comma-split token in order, by exactly one HTTP attempt
for `"80"`, exactly one HTTPS attempt for `"443"`, and an HTTPS attempt
followed by an HTTP attempt for any other token; never both schemes for
`"80"` or `"443"`. -/
theorem C5_port_scheme_attempts (lookup : String → Option (List SockAddr))
    (host ports : String) :
    resolvedDomains lookup host ports
        = "" :: (splitOnComma ports).flatMap (portAttempts lookup host)
      ∧ portAttempts lookup host "80"
          = [http_resolver lookup host "http://" "80"]
      ∧ portAttempts lookup host "443"
          = [http_resolver lookup host "https://" "443"]
      ∧ ∀ p, p ≠ "80" → p ≠ "443" →
          portAttempts lookup host p
            = [http_resolver lookup host "https://" p,
               http_resolver lookup host "http://" p] := by
  refine ⟨resolvedDomains_eq lookup host ports, by simp [portAttempts],
    ?_, ?_⟩
  · unfold portAttempts
    rw [if_neg (by decide), if_pos rfl]
  · intro p h80 h443
    simp [portAttempts, h80, h443]

/-- C5 witness: the general statement applied to a concrete lookup, the
ports string `"8443"` and the non-canonical token `"8443"`. -/
theorem C5_port_scheme_attempts_witness :
    portAttempts ipv4Lookup "h" "8443"
      = [http_resolver ipv4Lookup "h" "https://" "8443",
         http_resolver ipv4Lookup "h" "http://" "8443"] :=
  (C5_port_scheme_attempts ipv4Lookup "h" "8443").2.2.2 "8443"
    (by decide) (by decide)

/-- C4: for a job with a non-empty path, a path probe answering 404 or 400
abandons the candidate entirely — the request trace is exactly the one
probe request and no output line is produced, regardless of body content or
configured patterns. -/
theorem C4_path_probe_404_400_abandons (env : Env) (job : Job)
    (domain : String) (path_resp : Response)
    (hpath : job.path ≠ "")
    (hexec : env.exec (domain ++ job.path) = some path_resp)
    (hstatus : path_resp.status = 404 ∨ path_resp.status = 400) :
    processCandidate env job domain = ([domain ++ job.path], none) := by
  unfold processCandidate processWithPath
  rw [if_pos hpath]
  simp only [hexec]
  rcases hstatus with h | h <;> simp [h]

/-- C4 witness: path `/admin`, probe answers 404 with a body that matches
the configured body pattern `admin` — still one request and no output. -/
theorem C4_path_probe_404_400_abandons_witness :
    processCandidate failEnv404 pathJob "http://h:80"
      = (["http://h:80/admin"], none) :=
  C4_path_probe_404_400_abandons failEnv404 pathJob "http://h:80" resp404
    (by decide) rfl (Or.inl rfl)

/-- C7 counterexample: tech-detect set, every request succeeds, no patterns
configured, but the fingerprinting collaborator errors — the claim says the
candidate is still eligible for an output line with an empty technology
field; the code drops it (`continue`), emitting nothing. -/
theorem C7_counterexample :
    processCandidate scanErrEnv techJob "https://example.com:443"
      = (["https://example.com:443", "https://example.com:443"], none) := by
  decide

/-- C7 (amended): when the tech-detect flag is set and the fingerprinting
collaborator returns an error, the candidate is dropped — no output line is
emitted for it (the error aborts only this candidate, not the worker or the
run). -/
theorem C7_scan_error_drops (env : Env) (job : Job) (domain : String)
    (hflag : job.display_tech = true)
    (hscan : ∀ u, env.scan u = none) :
    (processCandidate env job domain).2 = none := by
  unfold processCandidate
  split
  · exact processWithPath_none_of_scan env job domain hflag hscan
  · exact processNoPath_none_of_scan env job domain hflag hscan

/-- C7 witness: the amended statement at the concrete erroring scanner. -/
theorem C7_scan_error_drops_witness :
    (processCandidate scanErrEnv techJob "https://example.com:443").2
      = none :=
  C7_scan_error_drops scanErrEnv techJob "https://example.com:443" rfl
    (fun _u => rfl)

/-- C8 counterexample: on the body
`<title></title>\n<title>Hi</title>` the first match of
`<title>(.*)</title>` has an empty first capture group, so the claim says no
title is reported; the code's loop skips the empty capture without breaking
and reports the second match's capture `Hi`. -/
theorem C8_counterexample :
    titleCaptures "<title></title>\n<title>Hi</title>" = ["", "Hi"]
      ∧ titleString "<title></title>\n<title>Hi</title>" = "[Hi]" := by
  refine ⟨by decide, by decide⟩

/-- C8 (amended): the reported title is the bracketed first capture group of
the first match whose capture is non-empty; if the pattern does not match or
every match's capture is empty, no title is reported. -/
theorem C8_title_first_nonempty_capture (body : String) :
    ((∀ c ∈ titleCaptures body, c = "") → titleString body = "")
      ∧ (∀ c, (titleCaptures body).find? (fun s => s != "") = some c →
          titleString body = "[" ++ c ++ "]") := by
  constructor
  · intro h
    exact titleLoop_all_empty _ h
  · intro c h
    exact titleLoop_find _ c h

/-- C8 witness: the amended statement at two concrete bodies — one with no
non-empty capture, one whose first non-empty capture is `Hi`. -/
theorem C8_title_first_nonempty_capture_witness :
    titleString "<title></title>" = ""
      ∧ titleString "<title>Hi</title>" = "[Hi]" :=
  ⟨(C8_title_first_nonempty_capture "<title></title>").1 (by decide),
   (C8_title_first_nonempty_capture "<title>Hi</title>").2 "Hi" (by decide)⟩

/-- C10: the candidate list of every job starts with the extra `""` element
placed there by the `vec![String::from("")]` initialisation, so it is never
empty, and the first probe attempt of every job targets that empty URL
(under a path, `"" ++ path`); when that request fails to build or execute —
as an empty or relative URL always does — the attempt is silently skipped
with no output. -/
theorem C10_initial_empty_candidate (env : Env)
    (lookup : String → Option (List SockAddr)) (job : Job)
    (h : env.exec job.path = none) :
    (resolvedDomains lookup job.host job.ports).head? = some ""
      ∧ resolvedDomains lookup job.host job.ports ≠ []
      ∧ processCandidate env job "" = ([job.path], none)
      ∧ (runJob env lookup job).head? = some ([job.path], none) := by
  have hres := resolvedDomains_eq lookup job.host job.ports
  have hep : ("" : String) ++ job.path = job.path := empty_append_str _
  have hproc : processCandidate env job "" = ([job.path], none) := by
    unfold processCandidate processWithPath processNoPath
    by_cases hp : job.path ≠ ""
    · rw [if_pos hp]
      simp only [hep, h]
    · rw [if_neg hp]
      push_neg at hp
      rw [hp] at h
      simp only [h]
      rw [hp]
  refine ⟨by rw [hres]; rfl, by rw [hres]; simp, hproc, ?_⟩
  unfold runJob
  rw [hres]
  simp [hproc]

/-- C10 witness: the statement at a concrete failing network, lookup and the
baseline job. -/
theorem C10_initial_empty_candidate_witness :
    (resolvedDomains (fun _ => none) baseJob.host baseJob.ports).head?
        = some ""
      ∧ resolvedDomains (fun _ => none) baseJob.host baseJob.ports ≠ []
      ∧ processCandidate failEnv baseJob "" = ([baseJob.path], none)
      ∧ (runJob failEnv (fun _ => none) baseJob).head?
          = some ([baseJob.path], none) :=
  C10_initial_empty_candidate failEnv (fun _ => none) baseJob rfl

/-- C6: the body-regex gate.  First, the gate itself never drops with an
empty configured pattern.  Second, with an empty pattern the whole
per-candidate pipeline is independent of the regex matcher — two
environments agreeing on network, compiles, URL parsing and scanning but
with arbitrary different matchers process every candidate identically, so a
live candidate is eligible for output regardless of body matching.  Third,
with a non-empty pattern that matches no body, the candidate produces no
output line. -/
theorem C6_body_regex_gate :
    (∀ env b, bodyRegexDrops env "" b = false)
      ∧ (∀ env env' job domain,
          env'.exec = env.exec → env'.compileOk = env.compileOk →
          env'.urlParseOk = env.urlParseOk → env'.scan = env.scan →
          job.body_regex = "" →
          processCandidate env' job domain = processCandidate env job domain)
      ∧ (∀ env job domain, job.body_regex ≠ "" →
          (∀ b, env.isMatch job.body_regex b = false) →
          (processCandidate env job domain).2 = none) := by
  refine ⟨fun env b => rfl, ?_, ?_⟩
  · intro env env' job domain hexec hcompile hparse hscan hbody
    unfold processCandidate
    by_cases hp : job.path ≠ ""
    · rw [if_pos hp, if_pos hp]
      exact processWithPath_cong env env' job domain hexec hcompile hparse
        hscan hbody
    · rw [if_neg hp, if_neg hp]
      exact processNoPath_cong env env' job domain hexec hcompile hparse
        hscan hbody
  · intro env job domain hne hnm
    unfold processCandidate
    split
    · exact processWithPath_none_of_nomatch env job domain hne hnm
    · exact processNoPath_none_of_nomatch env job domain hne hnm

/-- C6 witness: the three parts at concrete inputs — the gate at an empty
pattern, matcher-independence between `okEnv` and `okEnvNoMatch` on the
pattern-free `baseJob`, and the silent drop of `regexJob` (pattern
`"NOPE"`) under the always-false matcher. -/
theorem C6_body_regex_gate_witness :
    bodyRegexDrops okEnv "" "<html>" = false
      ∧ processCandidate okEnvNoMatch baseJob "http://h:80"
          = processCandidate okEnv baseJob "http://h:80"
      ∧ (processCandidate okEnvNoMatch regexJob "http://h:80").2 = none :=
  ⟨C6_body_regex_gate.1 okEnv "<html>",
   C6_body_regex_gate.2.1 okEnv okEnvNoMatch baseJob "http://h:80"
     rfl rfl rfl rfl rfl,
   C6_body_regex_gate.2.2 okEnvNoMatch regexJob "http://h:80" (by decide)
     (fun _b => rfl)⟩

/-- C9: the server field.  In the with-path variant every emitted line has
an empty server field — the code tests the freshly created empty `server`
string instead of the fetched header value `s`, so the field is never
populated, contradicting the claim that the Server header value is emitted
in both variants.  In the no-path variant the claim holds: when the `Server`
header is present with a non-empty value `s`, the emitted field is
`[s]`. -/
theorem C9_server_field :
    (∀ env job domain t out,
        processWithPath env job domain = (t, some out) → out.server = "")
      ∧ (∀ env job domain resp s t out,
          job.server = true →
          env.exec domain = some resp →
          headersGet resp.headers "Server" = some (some s) →
          s ≠ "" →
          processNoPath env job domain = (t, some out) →
          out.server = "[" ++ s ++ "]") := by
  constructor
  · intro env job domain t out h
    unfold processWithPath at h
    dsimp only at h
    repeat' split at h
    all_goals
      first
        | exact (analyzeTail_out_fields _ _ _ _ _ _ _ _ _ _ _ h).2.2.2
        | simp_all
  · intro env job domain resp s t out hsrv hexec hhdr hs h
    unfold processNoPath fetchContentLength fetchHeaderField at h
    dsimp only at h
    simp only [hexec, hsrv, hhdr] at h
    repeat' split at h
    all_goals
      first
        | exact (analyzeTail_out_fields _ _ _ _ _ _ _ _ _ _ _ h).2.2.2
        | simp_all
    all_goals exact (analyzeTail_out_fields _ _ _ _ _ _ _ _ _ _ _ h).2.2.2

/-- C9 witness: under `okEnv` (every request answers `resp200`, whose
`Server` header is `nginx`), the with-path job emits a line whose server
field is empty, the no-path job one whose server field is `[nginx]`. -/
theorem C9_server_field_witness :
    processWithPath okEnv srvJobP "http://h:80"
        = (["http://h:80/x", "http://h:80/x", "http://h:80/x",
            "http://h:80/x"], some srvLineP)
      ∧ srvLineP.server = ""
      ∧ processNoPath okEnv srvJobN "http://h:80"
          = (["http://h:80", "http://h:80", "http://h:80"], some srvLineN)
      ∧ srvLineN.server = "[nginx]" :=
  ⟨by decide,
   C9_server_field.1 okEnv srvJobP "http://h:80"
     ["http://h:80/x", "http://h:80/x", "http://h:80/x", "http://h:80/x"]
     srvLineP (by decide),
   by decide,
   C9_server_field.2 okEnv srvJobN "http://h:80" resp200 "nginx"
     ["http://h:80", "http://h:80", "http://h:80"] srvLineN rfl rfl
     (by decide) (by decide) (by decide)⟩

end Hrekt
